import Mathlib

/-!
Verification of `scripts/generate_sample_data.py`.

The script is straight-line Python: it assembles seven literal columns into
a pandas DataFrame, converts it to a pyarrow table, resolves an output path
from the script's own location, creates the `data` directory, writes the
table as snappy-compressed parquet, prints a summary, and returns the path.
The `__main__` block wraps the call in `except ImportError` /
`except Exception` handlers that exit with status 1.

We embed the script shallowly: filesystem paths are lists of segments,
the data is the literal column lists, and the side effects of a run are an
explicit trace.  Failures of the two fallible operations (`mkdir` and
`pq.write_table`) are injected through a `World` parameter.  Python module
semantics matter for the `__main__` error handling: the `import pandas` /
`import pyarrow` statements at the top of the file execute when the module
is loaded, BEFORE the `if __name__ == '__main__'` block runs, so a missing
dependency raises outside the `try` and CPython prints a traceback to
stderr and exits with status 1; this is reflected in `runScript`.
-/

namespace GenData

/-- Python `f'{n:04d}'`: decimal digits of `n`, left-padded with `'0'` to a
minimum width of 4. -/
def pyFormat04d (n : Nat) : String :=
  let s := toString n
  String.mk (List.replicate (4 - s.length) '0') ++ s

/-- Line 22: `[f'CUST{i:04d}' for i in range(1, 21)]`. -/
def customer_id : List String :=
  (List.range' 1 20).map (fun i => "CUST" ++ pyFormat04d i)

/-- Lines 23-28: the literal `customer_name` list. -/
def customer_name : List String :=
  ["Alice Johnson", "Bob Smith", "Charlie Brown", "Diana Prince", "Eve Wilson",
   "Frank Miller", "Grace Lee", "Henry Davis", "Ivy Chen", "Jack Taylor",
   "Karen White", "Liam O'Brien", "Mia Garcia", "Noah Martinez", "Olivia Anderson",
   "Paul Thompson", "Quinn Jackson", "Rachel Green", "Sam Wilson", "Tina Brown"]

/-- Lines 29-37: the literal `customer_email` list. -/
def customer_email : List String :=
  ["alice.j@example.com", "bob.smith@example.com", "charlie.b@example.com",
   "diana.p@example.com", "eve.w@example.com", "frank.m@example.com",
   "grace.lee@example.com", "henry.d@example.com", "ivy.chen@example.com",
   "jack.t@example.com", "karen.w@example.com", "liam.ob@example.com",
   "mia.g@example.com", "noah.m@example.com", "olivia.a@example.com",
   "paul.t@example.com", "quinn.j@example.com", "rachel.g@example.com",
   "sam.w@example.com", "tina.b@example.com"]

/-- Lines 38-43: the literal `ssn` list. -/
def ssn : List String :=
  ["123-45-6789", "234-56-7890", "345-67-8901", "456-78-9012", "567-89-0123",
   "678-90-1234", "789-01-2345", "890-12-3456", "901-23-4567", "012-34-5678",
   "111-22-3333", "222-33-4444", "333-44-5555", "444-55-6666", "555-66-7777",
   "666-77-8888", "777-88-9999", "888-99-0000", "999-00-1111", "000-11-2222"]

/-- Lines 44-49: the literal `sales_region` list (three groups of five
followed by the five mixed entries `APAC, APAC, EMEA, AMER, APAC`). -/
def sales_region : List String :=
  ["APAC", "APAC", "APAC", "APAC", "APAC",
   "EMEA", "EMEA", "EMEA", "EMEA", "EMEA",
   "AMER", "AMER", "AMER", "AMER", "AMER",
   "APAC", "APAC", "EMEA", "AMER", "APAC"]

/-- Lines 50-55: the literal `sales_amount` list.  The Python source uses
float literals (serialized as float64); we model them as exact rationals,
and no claim depends on their numeric values. -/
def sales_amount : List ℚ :=
  [1250.50, 2300.75, 1890.25, 3200.00, 1450.30,
   2100.00, 1750.50, 2900.25, 1650.75, 2400.00,
   1950.50, 2800.25, 1550.75, 3100.00, 2200.50,
   1850.25, 2600.75, 1400.00, 2700.50, 1900.25]

/-- Lines 56-61: the literal `sale_date` list. -/
def sale_date : List String :=
  ["2024-01-15", "2024-01-16", "2024-01-17", "2024-01-18", "2024-01-19",
   "2024-02-10", "2024-02-11", "2024-02-12", "2024-02-13", "2024-02-14",
   "2024-03-05", "2024-03-06", "2024-03-07", "2024-03-08", "2024-03-09",
   "2024-04-20", "2024-04-21", "2024-04-22", "2024-04-23", "2024-04-24"]

/-- A cell of the table: the script's columns hold either strings or
decimal numbers. -/
inductive ColValue where
  | str (s : String)
  | dec (q : ℚ)
deriving DecidableEq

/-- Whether a cell is a string value. -/
def ColValue.isStr : ColValue → Bool
  | .str _ => true
  | .dec _ => false

/-- Whether a cell is a decimal value. -/
def ColValue.isDec : ColValue → Bool
  | .str _ => false
  | .dec _ => true

/-- A named column, as pandas/pyarrow keep them. -/
structure Column where
  name : String
  values : List ColValue
deriving DecidableEq

/-- Lines 21-62: the `data` dict, in Python dict insertion order. -/
def dataColumns : List Column :=
  [⟨"customer_id", customer_id.map .str⟩,
   ⟨"customer_name", customer_name.map .str⟩,
   ⟨"customer_email", customer_email.map .str⟩,
   ⟨"ssn", ssn.map .str⟩,
   ⟨"sales_region", sales_region.map .str⟩,
   ⟨"sales_amount", sales_amount.map .dec⟩,
   ⟨"sale_date", sale_date.map .str⟩]

/-- Line 64: `df = pd.DataFrame(data)`; the DataFrame carries the same
columns in the same order. -/
def df : List Column := dataColumns

/-- Line 67: `pa.Table.from_pandas(df)` preserves column order, names and
values (the pandas range index is not materialized as a column). -/
def table : List Column := df

/-- `len(df)`: the number of rows, i.e. the length of the (shared) index,
which pandas takes from the columns. -/
def numRows (t : List Column) : Nat :=
  match t with
  | [] => 0
  | c :: _ => c.values.length

/-- Column lookup by name, as `df['sales_region']`. -/
def colValues (t : List Column) (nm : String) : List ColValue :=
  match t.find? (fun c => c.name = nm) with
  | some c => c.values
  | none => []

/-- Lines 84-86: `len(df[df['sales_region'] == r])`, the number of rows of
the assembled DataFrame whose `sales_region` cell equals `r`. -/
def countRegion (r : String) : Nat :=
  (colValues df "sales_region").countP (fun v => v = ColValue.str r)

/-- A filesystem path, as its list of segments (POSIX, absolute root left
implicit). -/
abbrev Path := List String

/-- `pathlib.Path.parent`: drop the last segment. -/
def parent (p : Path) : Path := p.dropLast

/-- Render a path the way an f-string renders a `pathlib.Path`. -/
def pathToString (p : Path) : String := String.intercalate "/" p

/-- One observable filesystem action of a run, in order of occurrence.
`removeFile` is part of the vocabulary so that "no cleanup" is a statement
about the trace; the script never emits it. -/
inductive Effect where
  | mkdir (p : Path) (exist_ok : Bool)
  | writeParquet (p : Path) (t : List Column) (compression : String)
  | removeFile (p : Path)
deriving DecidableEq

/-- Whether an effect is a file removal. -/
def Effect.isRemove : Effect → Bool
  | .removeFile _ => true
  | _ => false

/-- Whether an effect is a parquet write. -/
def Effect.isWrite : Effect → Bool
  | .writeParquet _ _ _ => true
  | _ => false

/-- The environment a run sees: whether `data_dir.mkdir(exist_ok=True)`
and `pq.write_table(...)` succeed, or raise with the given message.  These
are the script's only fallible operations (the data assembly is literal). -/
structure World where
  mkdirError : Option String
  writeError : Option String
deriving DecidableEq

/-- A Python exception, tagged by whether it is an `ImportError` (the
distinction the `__main__` handlers dispatch on). -/
inductive PyExc where
  | importError (msg : String)
  | exception (msg : String)
deriving DecidableEq

/-- The result of the `generate_sample_data()` call. -/
inductive GenResult where
  | ok (p : Path)
  | raised (e : PyExc)
deriving DecidableEq

/-- What a call to `generate_sample_data()` produced: the filesystem
actions that took effect, the lines printed to stdout (the
`print(f"\nData summary:")` statement contributes two lines, a blank one
and `Data summary:`), and the returned path or the exception raised. -/
structure GenOutcome where
  effects : List Effect
  printed : List String
  result : GenResult
deriving DecidableEq

/-- Lines 17-88: `generate_sample_data()`.  `scriptFile` is `__file__`;
the literal data assembly (lines 21-67) cannot fail, then
`script_dir = Path(__file__).parent`, `project_root = script_dir.parent`,
`data_dir = project_root / 'data'`, `data_dir.mkdir(exist_ok=True)`,
`output_file = data_dir / 'sales_sample.parquet'`,
`pq.write_table(table, output_file, compression='snappy')`, the seven
`print` statements, and `return output_file`.  A failed `mkdir` leaves no
trace; a failed write happens after the successful `mkdir`. -/
def generate_sample_data (scriptFile : Path) (w : World) : GenOutcome :=
  let script_dir := parent scriptFile
  let project_root := parent script_dir
  let data_dir := project_root ++ ["data"]
  match w.mkdirError with
  | some m => ⟨[], [], .raised (.exception m)⟩
  | none =>
    let output_file := data_dir ++ ["sales_sample.parquet"]
    match w.writeError with
    | some m => ⟨[.mkdir data_dir true], [], .raised (.exception m)⟩
    | none =>
      ⟨[.mkdir data_dir true, .writeParquet output_file table "snappy"],
       ["Sample data generated successfully!",
        "File: " ++ pathToString output_file,
        "Records: " ++ toString (numRows df),
        "",
        "Data summary:",
        "  APAC records: " ++ toString (countRegion "APAC"),
        "  EMEA records: " ++ toString (countRegion "EMEA"),
        "  AMER records: " ++ toString (countRegion "AMER")],
       .ok output_file⟩

/-- Which of the imported libraries (lines 11-13) can be loaded. -/
structure Libs where
  pandas : Bool
  pyarrow : Bool
deriving DecidableEq

/-- The observable outcome of one process run of the script. -/
structure ProcResult where
  exitCode : Nat
  stdout : List String
  stderr : List String
  effects : List Effect
deriving DecidableEq

/-- Running `python scripts/generate_sample_data.py`.  The module body
executes top to bottom: the imports on lines 11-13 run first, so if
pandas or pyarrow cannot be loaded the `ImportError` is raised before the
`try` of the `__main__` block and propagates uncaught — CPython prints a
traceback to stderr and the process exits with status 1, with nothing on
stdout and no filesystem effect.  Otherwise the `__main__` block (lines
90-99) runs `generate_sample_data()` under its two handlers:
`except ImportError` prints the two installation lines and exits 1, and
`except Exception as e` prints `Error generating sample data: {e}` and
exits 1; on success the process ends with status 0. -/
def runScript (libs : Libs) (scriptFile : Path) (w : World) : ProcResult :=
  if libs.pandas = false then
    ⟨1, [], ["ModuleNotFoundError: No module named 'pandas'"], []⟩
  else if libs.pyarrow = false then
    ⟨1, [], ["ModuleNotFoundError: No module named 'pyarrow'"], []⟩
  else
    let g := generate_sample_data scriptFile w
    match g.result with
    | .ok _ => ⟨0, g.printed, [], g.effects⟩
    | .raised (.importError _) =>
        ⟨1, g.printed ++ ["Error: Required Python packages not installed.",
                          "Please install: pip install pandas pyarrow"],
         [], g.effects⟩
    | .raised (.exception m) =>
        ⟨1, g.printed ++ ["Error generating sample data: " ++ m],
         [], g.effects⟩

/-- The on-disk content of a parquet file, to the granularity the model
tracks: the table that was serialized and the compression codec.  Under a
fixed library version the byte stream is a function of this pair. -/
abbrev FileContent := List Column × String

/-- The content found at `p` after replaying an effect trace over an
initial filesystem `fs0`: a later `writeParquet` at `p` overwrites
whatever was there; `removeFile` deletes; `mkdir` leaves files alone. -/
def fileAfter (fs0 : Path → Option FileContent) (effs : List Effect)
    (p : Path) : Option FileContent :=
  effs.foldl
    (fun acc e =>
      match e with
      | .writeParquet q t c => if q = p then some (t, c) else acc
      | .removeFile q => if q = p then none else acc
      | .mkdir _ _ => acc)
    (fs0 p)

/-- A `World` in which both fallible operations succeed. -/
def okWorld : World := ⟨none, none⟩

/-- Both libraries importable. -/
def allLibs : Libs := ⟨true, true⟩

/-- Strict lexicographic order on character lists, by Unicode code point —
the order Python's `<` gives on the ASCII strings of this script. -/
def charListLt : List Char → List Char → Bool
  | [], [] => false
  | [], _ :: _ => true
  | _ :: _, [] => false
  | a :: as, b :: bs => if a = b then charListLt as bs else decide (a.toNat < b.toNat)

/-- Strict lexicographic order on strings, via their character lists. -/
def strLt (a b : String) : Bool := charListLt a.data b.data

/-- The numeric value of a list of decimal digit characters. -/
def digitsVal (cs : List Char) : Nat :=
  cs.foldl (fun n c => 10 * n + (c.toNat - 48)) 0

/-- The numeric suffix of a `CUSTnnnn` identifier: the digits after the
four-character `CUST` head. -/
def custSuffix (s : String) : Nat := digitsVal (s.data.drop 4)

end GenData

namespace GenData

/-- A world whose two fallible operations both succeed is `okWorld`. -/
theorem World.eq_ok (w : World) (hm : w.mkdirError = none)
    (hw : w.writeError = none) : w = okWorld := by
  obtain ⟨a, b⟩ := w
  change a = none at hm
  change b = none at hw
  rw [hm, hw]
  rfl

/-- A run of the script that exits with status 0 saw both fallible
operations succeed. -/
theorem success_world (scriptFile : Path) (w : World)
    (h : (runScript allLibs scriptFile w).exitCode = 0) : w = okWorld := by
  obtain ⟨a, b⟩ := w
  cases a with
  | some m => exact absurd (show (1 : Nat) = 0 from h) one_ne_zero
  | none =>
    cases b with
    | some m => exact absurd (show (1 : Nat) = 0 from h) one_ne_zero
    | none => rfl

/-- C1 counterexample: the `sales_region` literal does not yield 11 APAC,
5 EMEA and 4 AMER rows — counting the assembled data gives 8 APAC. -/
theorem c1_counterexample :
    ¬ (countRegion "APAC" = 11 ∧ countRegion "EMEA" = 5 ∧
       countRegion "AMER" = 4) := by
  decide

/-- C1 (amended): the literal `sales_region` list yields exactly 8 APAC,
6 EMEA and 6 AMER rows, and the per-region counts printed in the summary
(counted from the assembled data, lines 84-86) are exactly these numbers. -/
theorem c1_region_counts (scriptFile : Path) :
    countRegion "APAC" = 8 ∧ countRegion "EMEA" = 6 ∧
    countRegion "AMER" = 6 ∧
    (generate_sample_data scriptFile okWorld).printed.drop 5 =
      ["  APAC records: 8", "  EMEA records: 6", "  AMER records: 6"] := by
  exact ⟨by decide, by decide, by decide, rfl⟩

/-- C3: the assembled table has 20 rows and exactly the 7 columns
`customer_id, customer_name, customer_email, ssn, sales_region,
sales_amount, sale_date` in that order, every column has length 20, every
column except `sales_amount` holds only strings, and `sales_amount` holds
only decimal values. -/
theorem c3_table_shape :
    numRows df = 20 ∧
    table.length = 7 ∧
    table.map Column.name = ["customer_id", "customer_name",
      "customer_email", "ssn", "sales_region", "sales_amount",
      "sale_date"] ∧
    (table.all fun c => c.values.length == 20) = true ∧
    (table.all fun c =>
      (c.name == "sales_amount") || c.values.all ColValue.isStr) = true ∧
    ((colValues table "sales_amount").all ColValue.isDec) = true := by
  decide

/-- C4: the `customer_id` column is exactly `CUST0001` .. `CUST0020`: the
explicit list of the 20 values, pairwise distinct, whose numeric suffixes
are exactly 1..20 and strictly increase in row order. -/
theorem c4_customer_id :
    customer_id =
      ["CUST0001", "CUST0002", "CUST0003", "CUST0004", "CUST0005",
       "CUST0006", "CUST0007", "CUST0008", "CUST0009", "CUST0010",
       "CUST0011", "CUST0012", "CUST0013", "CUST0014", "CUST0015",
       "CUST0016", "CUST0017", "CUST0018", "CUST0019", "CUST0020"] ∧
    customer_id.Nodup ∧
    customer_id.map custSuffix = List.range' 1 20 ∧
    List.Pairwise (fun a b : String => custSuffix a < custSuffix b)
      customer_id := by
  decide

/-- C9: every one of the 20 `customer_email` values ends with
`@example.com`, and the 20 values are pairwise distinct. -/
theorem c9_email_invariants :
    customer_email.length = 20 ∧
    (customer_email.all fun e =>
      List.isSuffixOf "@example.com".data e.data) = true ∧
    customer_email.Nodup := by
  decide

/-- C10: the 20 `sale_date` strings strictly increase in row order under
lexicographic comparison, hence they are pairwise distinct. -/
theorem c10_sale_date_increasing :
    List.Pairwise (fun a b => strLt a b = true) sale_date ∧
    sale_date.Nodup := by
  decide

end GenData

namespace GenData

/-- C2: when pandas cannot be imported, the module-level `import pandas`
(line 11) raises before the `try` of the `__main__` block, so the process
exits with status 1 and attempts none of the generation steps (no effect
on the filesystem), but nothing is printed to stdout — in particular the
installation-instruction message of the unreachable `except ImportError`
handler (lines 93-96) never appears. -/
theorem c2_missing_dependency_behaviour :
    (runScript ⟨false, true⟩ ["repo", "scripts", "generate_sample_data.py"]
      okWorld).exitCode = 1 ∧
    (runScript ⟨false, true⟩ ["repo", "scripts", "generate_sample_data.py"]
      okWorld).effects = [] ∧
    (runScript ⟨false, true⟩ ["repo", "scripts", "generate_sample_data.py"]
      okWorld).stdout = [] ∧
    "Please install: pip install pandas pyarrow" ∉
      (runScript ⟨false, true⟩ ["repo", "scripts", "generate_sample_data.py"]
        okWorld).stdout := by
  decide

/-- C5: on every successful run (both fallible operations succeed),
`generate_sample_data` writes the table with snappy compression at
`<project_root>/data/sales_sample.parquet` — `project_root` being the
parent of the directory containing the script — and returns exactly that
path. -/
theorem c5_output_path (scriptFile : Path) (w : World)
    (hm : w.mkdirError = none) (hw : w.writeError = none) :
    (generate_sample_data scriptFile w).result =
      GenResult.ok ((parent (parent scriptFile) ++ ["data"]) ++
        ["sales_sample.parquet"]) ∧
    Effect.writeParquet ((parent (parent scriptFile) ++ ["data"]) ++
        ["sales_sample.parquet"]) table "snappy" ∈
      (generate_sample_data scriptFile w).effects := by
  rw [World.eq_ok w hm hw]
  exact ⟨rfl, List.Mem.tail _ (List.Mem.head _)⟩

/-- Witness for C5 at a concrete script location and the all-success
world. -/
theorem c5_output_path_witness :
    okWorld.mkdirError = none ∧ okWorld.writeError = none ∧
    ((generate_sample_data ["repo", "scripts", "generate_sample_data.py"]
        okWorld).result =
      GenResult.ok ((parent (parent ["repo", "scripts",
        "generate_sample_data.py"]) ++ ["data"]) ++
        ["sales_sample.parquet"]) ∧
     Effect.writeParquet ((parent (parent ["repo", "scripts",
        "generate_sample_data.py"]) ++ ["data"]) ++
        ["sales_sample.parquet"]) table "snappy" ∈
      (generate_sample_data ["repo", "scripts", "generate_sample_data.py"]
        okWorld).effects) :=
  ⟨rfl, rfl,
   c5_output_path ["repo", "scripts", "generate_sample_data.py"] okWorld
     rfl rfl⟩

end GenData

namespace GenData

/-- A failed `mkdir` aborts `generate_sample_data` before any effect. -/
theorem gen_mkdir_fail (scriptFile : Path) (w : World) (m : String)
    (hm : w.mkdirError = some m) :
    generate_sample_data scriptFile w =
      ⟨[], [], .raised (.exception m)⟩ := by
  unfold generate_sample_data
  rw [hm]

/-- A failed `pq.write_table` aborts `generate_sample_data` after the
directory was created, before anything is printed. -/
theorem gen_write_fail (scriptFile : Path) (w : World) (m : String)
    (hm : w.mkdirError = none) (hw : w.writeError = some m) :
    generate_sample_data scriptFile w =
      ⟨[.mkdir (parent (parent scriptFile) ++ ["data"]) true], [],
       .raised (.exception m)⟩ := by
  unfold generate_sample_data
  rw [hm, hw]

/-- C6: for every non-ImportError exception raised during directory
creation or file writing (the fallible generation steps), the process
prints the exception's message verbatim behind the label
`Error generating sample data: ` as its only stdout line and exits with
status 1, with no retry (at most one write in the trace) and no cleanup
(no file removal in the trace). -/
theorem c6_generation_failure (scriptFile : Path) (w : World) (m : String)
    (h : w.mkdirError = some m ∨
         (w.mkdirError = none ∧ w.writeError = some m)) :
    (runScript allLibs scriptFile w).exitCode = 1 ∧
    (runScript allLibs scriptFile w).stdout =
      ["Error generating sample data: " ++ m] ∧
    ((runScript allLibs scriptFile w).effects.all fun e =>
      !e.isRemove) = true ∧
    ((runScript allLibs scriptFile w).effects.countP fun e =>
      e.isWrite) ≤ 1 := by
  rcases h with hm | ⟨hm, hw⟩
  · have hg := gen_mkdir_fail scriptFile w m hm
    unfold runScript
    rw [hg]
    exact ⟨rfl, rfl, rfl, Nat.zero_le 1⟩
  · have hg := gen_write_fail scriptFile w m hm hw
    unfold runScript
    rw [hg]
    exact ⟨rfl, rfl, rfl, Nat.zero_le 1⟩

/-- Witness for C6: the `mkdir` step fails with message `boom`. -/
theorem c6_generation_failure_witness :
    ((⟨some "boom", none⟩ : World).mkdirError = some "boom" ∨
     ((⟨some "boom", none⟩ : World).mkdirError = none ∧
      (⟨some "boom", none⟩ : World).writeError = some "boom")) ∧
    ((runScript allLibs ["repo", "scripts", "generate_sample_data.py"]
        ⟨some "boom", none⟩).exitCode = 1 ∧
     (runScript allLibs ["repo", "scripts", "generate_sample_data.py"]
        ⟨some "boom", none⟩).stdout =
       ["Error generating sample data: " ++ "boom"] ∧
     ((runScript allLibs ["repo", "scripts", "generate_sample_data.py"]
        ⟨some "boom", none⟩).effects.all fun e => !e.isRemove) = true ∧
     ((runScript allLibs ["repo", "scripts", "generate_sample_data.py"]
        ⟨some "boom", none⟩).effects.countP fun e => e.isWrite) ≤ 1) :=
  ⟨Or.inl rfl,
   c6_generation_failure ["repo", "scripts", "generate_sample_data.py"]
     ⟨some "boom", none⟩ "boom" (Or.inl rfl)⟩

end GenData

namespace GenData

/-- C7 counterexample: on a successful run the console report has 8
lines, not the 7 the claimed shape (banner, path, count, blank, three
region lines) would give — the line after the blank line is the header
`Data summary:`, not a region-count line. -/
theorem c7_counterexample :
    (generate_sample_data ["repo", "scripts", "generate_sample_data.py"]
      okWorld).printed.length = 8 ∧
    ¬ (generate_sample_data ["repo", "scripts", "generate_sample_data.py"]
      okWorld).printed.length = 7 ∧
    (generate_sample_data ["repo", "scripts", "generate_sample_data.py"]
      okWorld).printed[4]? = some "Data summary:" := by
  decide

/-- C7 (amended): on every successful run the console output is the
fixed-shape report: success banner, file path, total record count, a
blank line, a `Data summary:` header, then exactly three region-count
lines labeled APAC, EMEA and AMER. -/
theorem c7_console_report (scriptFile : Path) (w : World)
    (hm : w.mkdirError = none) (hw : w.writeError = none) :
    (generate_sample_data scriptFile w).printed =
      ["Sample data generated successfully!",
       "File: " ++ pathToString ((parent (parent scriptFile) ++ ["data"])
         ++ ["sales_sample.parquet"]),
       "Records: 20",
       "",
       "Data summary:",
       "  APAC records: 8",
       "  EMEA records: 6",
       "  AMER records: 6"] := by
  rw [World.eq_ok w hm hw]
  rfl

/-- Witness for C7 at a concrete script location and the all-success
world. -/
theorem c7_console_report_witness :
    okWorld.mkdirError = none ∧ okWorld.writeError = none ∧
    (generate_sample_data ["repo", "scripts", "generate_sample_data.py"]
        okWorld).printed =
      ["Sample data generated successfully!",
       "File: " ++ pathToString ((parent (parent ["repo", "scripts",
         "generate_sample_data.py"]) ++ ["data"]) ++
         ["sales_sample.parquet"]),
       "Records: 20",
       "",
       "Data summary:",
       "  APAC records: 8",
       "  EMEA records: 6",
       "  AMER records: 6"] :=
  ⟨rfl, rfl,
   c7_console_report ["repo", "scripts", "generate_sample_data.py"]
     okWorld rfl rfl⟩

/-- C8: the generator is deterministic and overwrites.  For any two
successful runs from the same script location, whatever the prior
filesystem contents and whatever the (necessarily successful) worlds, the
file left at `<project_root>/data/sales_sample.parquet` is
`some (table, "snappy")` — so under any fixed serializer (one library and
compression version) the bytes of the two runs' outputs coincide. -/
theorem c8_deterministic {B : Type}
    (serialize : List Column → String → B)
    (scriptFile : Path) (w1 w2 : World)
    (fs1 fs2 : Path → Option FileContent)
    (h1 : (runScript allLibs scriptFile w1).exitCode = 0)
    (h2 : (runScript allLibs scriptFile w2).exitCode = 0) :
    fileAfter fs1 (runScript allLibs scriptFile w1).effects
        ((parent (parent scriptFile) ++ ["data"]) ++
          ["sales_sample.parquet"]) = some (table, "snappy") ∧
    Option.map (fun tc : FileContent => serialize tc.1 tc.2)
        (fileAfter fs1 (runScript allLibs scriptFile w1).effects
          ((parent (parent scriptFile) ++ ["data"]) ++
            ["sales_sample.parquet"])) =
      Option.map (fun tc : FileContent => serialize tc.1 tc.2)
        (fileAfter fs2 (runScript allLibs scriptFile w2).effects
          ((parent (parent scriptFile) ++ ["data"]) ++
            ["sales_sample.parquet"])) := by
  rw [success_world scriptFile w1 h1, success_world scriptFile w2 h2]
  have key : ∀ fs : Path → Option FileContent,
      fileAfter fs (runScript allLibs scriptFile okWorld).effects
        ((parent (parent scriptFile) ++ ["data"]) ++
          ["sales_sample.parquet"]) = some (table, "snappy") := by
    intro fs
    show (if ((parent (parent scriptFile) ++ ["data"]) ++
          ["sales_sample.parquet"]) =
        ((parent (parent scriptFile) ++ ["data"]) ++
          ["sales_sample.parquet"])
      then some (table, "snappy")
      else fs ((parent (parent scriptFile) ++ ["data"]) ++
          ["sales_sample.parquet"])) = some (table, "snappy")
    rw [if_pos rfl]
  refine ⟨key fs1, ?_⟩
  rw [key fs1, key fs2]

/-- Witness for C8: the pairing serializer, an empty prior filesystem and
two all-success runs from a concrete script location. -/
theorem c8_deterministic_witness :
    (runScript allLibs ["repo", "scripts", "generate_sample_data.py"]
      okWorld).exitCode = 0 ∧
    (fileAfter (fun _ => none)
        (runScript allLibs ["repo", "scripts", "generate_sample_data.py"]
          okWorld).effects
        ((parent (parent ["repo", "scripts",
          "generate_sample_data.py"]) ++ ["data"]) ++
          ["sales_sample.parquet"]) = some (table, "snappy") ∧
     Option.map (fun tc : FileContent => ((tc.1, tc.2) : FileContent))
        (fileAfter (fun _ => none)
          (runScript allLibs ["repo", "scripts",
            "generate_sample_data.py"] okWorld).effects
          ((parent (parent ["repo", "scripts",
            "generate_sample_data.py"]) ++ ["data"]) ++
            ["sales_sample.parquet"])) =
      Option.map (fun tc : FileContent => ((tc.1, tc.2) : FileContent))
        (fileAfter (fun _ => none)
          (runScript allLibs ["repo", "scripts",
            "generate_sample_data.py"] okWorld).effects
          ((parent (parent ["repo", "scripts",
            "generate_sample_data.py"]) ++ ["data"]) ++
            ["sales_sample.parquet"]))) :=
  ⟨rfl,
   c8_deterministic (fun t c => ((t, c) : FileContent))
     ["repo", "scripts", "generate_sample_data.py"] okWorld okWorld
     (fun _ => none) (fun _ => none) rfl rfl⟩

end GenData
